import Mathlib

/-!
Shallow embedding of the network-benchmark script (`main.py`) and proofs
about its text summarizers, time formatting, argument validation and the
shared cancellation flag.

Python string primitives (`str.split`, `str.strip`, `str.lower`, the `in`
substring test, f-string joins, `int(...)`) are modelled by executable
functions over `List Char`, and the script's functions `summarize_ping`
(main.py lines 97-139), `summarize_iperf` (lines 141-228),
`seconds_to_hms` (lines 230-235) and the `__main__` argument handling
(lines 296-311) are translated statement by statement.
-/

/-- ASCII whitespace, as recognised by Python `str.split()` / `str.strip()`
on the tool output handled here. -/
def isSpaceCh (c : Char) : Bool :=
  c == ' ' || c == '\t' || c == '\n' || c == '\r' || c == '\x0b' || c == '\x0c'

/-- ASCII lower-casing of one character (Python `str.lower` on ASCII). -/
def lowerCh (c : Char) : Char :=
  if 65 ≤ c.toNat then
    if c.toNat ≤ 90 then Char.ofNat (c.toNat + 32) else c
  else c

/-- Python `s.lower()` (ASCII). -/
def pyLower (s : String) : String := String.mk (s.data.map lowerCh)

/-- Does the second list occur as a leading segment of the first argument?
`listStarts needle hay` is true iff `needle` is an initial segment of `hay`. -/
def listStarts : List Char → List Char → Bool
  | [], _ => true
  | _ :: _, [] => false
  | a :: as, b :: bs => a == b && listStarts as bs

/-- Does `needle` occur as a contiguous run inside `hay`? -/
def listHasSub (needle : List Char) : List Char → Bool
  | [] => listStarts needle []
  | b :: bs => listStarts needle (b :: bs) || listHasSub needle bs

/-- Python `needle in hay` for strings. -/
def strContains (hay needle : String) : Bool := listHasSub needle.data hay.data

/-- `strStarts s t`: the string `s` begins with `t`. -/
def strStarts (s t : String) : Bool := listStarts t.data s.data

/-- Worker for `pySplit`: `cur` holds the current token, reversed. -/
def splitWsAux : List Char → List Char → List String
  | [], cur => if cur == [] then [] else [String.mk cur.reverse]
  | c :: rest, cur =>
    if isSpaceCh c then
      if cur == [] then splitWsAux rest []
      else String.mk cur.reverse :: splitWsAux rest []
    else splitWsAux rest (c :: cur)

/-- Python `s.split()` with no separator: runs of whitespace delimit tokens,
empty tokens are never produced. -/
def pySplit (s : String) : List String := splitWsAux s.data []

/-- Worker for `pySplitOn`. -/
def splitChAux (sep : Char) : List Char → List Char → List String
  | [], cur => [String.mk cur.reverse]
  | c :: rest, cur =>
    if c == sep then String.mk cur.reverse :: splitChAux sep rest []
    else splitChAux sep rest (c :: cur)

/-- Python `s.split(sep)` for a one-character separator: keeps empty pieces,
always returns at least one piece. -/
def pySplitOn (sep : Char) (s : String) : List String := splitChAux sep s.data []

/-- Python `s.strip()`. -/
def pyStrip (s : String) : String :=
  String.mk (((s.data.dropWhile isSpaceCh).reverse.dropWhile isSpaceCh).reverse)

/-- Python `sep.join(parts)`. -/
def pyJoin (sep : String) : List String → String
  | [] => ""
  | [x] => x
  | x :: xs => x ++ sep ++ pyJoin sep xs

/-- Python truthiness of an optional string variable initialised to `None`:
`None` and `""` are falsy, any other string is truthy. -/
def pyTruthy : Option String → Bool
  | none => false
  | some s => !(s == "")

/-- Digits (with single interior underscores) of a Python integer literal. -/
def digitsCore : List Char → Nat → Option Nat
  | [], acc => some acc
  | c :: rest, acc =>
    if c == '_' then
      match rest with
      | c2 :: rest2 =>
        if c2.isDigit then digitsCore rest2 (acc * 10 + (c2.toNat - 48)) else none
      | [] => none
    else if c.isDigit then digitsCore rest (acc * 10 + (c.toNat - 48)) else none

/-- Unsigned part of Python `int(s)`: a nonempty digit sequence, underscores
allowed between digits. -/
def pyIntNat : List Char → Option Nat
  | [] => none
  | c :: rest => if c.isDigit then digitsCore rest (c.toNat - 48) else none

/-- Python `int(s)` for decimal strings: surrounding whitespace is stripped,
an optional sign is allowed; `none` models a raised `ValueError`. -/
def pyInt (s : String) : Option Int :=
  match (pyStrip s).data with
  | '+' :: rest => (pyIntNat rest).map (fun n => (n : Int))
  | '-' :: rest => (pyIntNat rest).map (fun n => -(n : Int))
  | l => (pyIntNat l).map (fun n => (n : Int))

/-! ## `summarize_ping` (main.py lines 97-139) -/

/-- Guard of the statistics branch: `"packets transmitted" in line.lower()`
(main.py line 104). -/
def statsMatch (line : String) : Bool :=
  strContains (pyLower line) "packets transmitted"

/-- Guard of the RTT branch (main.py line 112). -/
def rttCond (line : String) : Bool :=
  strContains (pyLower line) "rtt min/avg/max" ||
  strContains (pyLower line) "round-trip min/avg/max"

/-- `parts[0].split()[0]` of main.py line 107, where
`parts = [p.strip() for p in line.split(",")]`; `none` models `IndexError`. -/
def statsParse1 (line : String) : Option String :=
  (pySplit (((pySplitOn ',' line).map pyStrip).headD "")).head?

/-- `parts[1].split()[0]` of main.py line 108; `none` models `IndexError`
from either indexing step. -/
def statsParse2 (line : String) : Option String :=
  match ((pySplitOn ',' line).map pyStrip)[1]? with
  | none => none
  | some p => (pySplit p).head?

/-- `parts[2].split("%")[0].split()[-1]` of main.py line 109. -/
def statsParse3 (line : String) : Option String :=
  match ((pySplitOn ',' line).map pyStrip)[2]? with
  | none => none
  | some p => (pySplit ((pySplitOn '%' p).headD "")).getLast?

/-- The statistics branch body (main.py lines 105-111): the three
assignments run in order inside one `try`, so an `IndexError` at a later
assignment keeps the values already assigned by the earlier ones. -/
def statsUpd (line : String) (t r l : Option String) :
    Option String × Option String × Option String :=
  match statsParse1 line with
  | none => (t, r, l)
  | some tv =>
    match statsParse2 line with
    | none => (some tv, r, l)
    | some rv =>
      match statsParse3 line with
      | none => (some tv, some rv, l)
      | some lv => (some tv, some rv, some lv)

/-- The RTT branch body (main.py lines 113-119): `stats` is
`line.split("=")[1].strip().split("/")`; the three assignments run in
order inside one `try`. -/
def rttUpd (line : String) (mn av mx : Option String) :
    Option String × Option String × Option String :=
  match (pySplitOn '=' line)[1]? with
  | none => (mn, av, mx)
  | some s1 =>
    match (pySplitOn '/' (pyStrip s1))[1]? with
    | none => (some (pyStrip ((pySplitOn '/' (pyStrip s1)).headD "")), av, mx)
    | some s2 =>
      match (pySplitOn '/' (pyStrip s1))[2]? with
      | none =>
        (some (pyStrip ((pySplitOn '/' (pyStrip s1)).headD "")), some (pyStrip s2), mx)
      | some s3 =>
        match (pySplit (pyStrip s3)).head? with
        | none =>
          (some (pyStrip ((pySplitOn '/' (pyStrip s1)).headD "")), some (pyStrip s2), mx)
        | some mv =>
          (some (pyStrip ((pySplitOn '/' (pyStrip s1)).headD "")), some (pyStrip s2), some mv)

/-- The local variables of `summarize_ping`, all initialised to `None`
(main.py lines 99-100). -/
structure PingSt where
  transmitted : Option String
  received : Option String
  loss : Option String
  min_latency : Option String
  avg_latency : Option String
  max_latency : Option String

def pingInit : PingSt := ⟨none, none, none, none, none, none⟩

/-- One iteration of the `for line in ping_lines` loop
(main.py lines 102-119). -/
def pingStep (st : PingSt) (line : String) : PingSt :=
  if statsMatch line then
    { st with
      transmitted := (statsUpd line st.transmitted st.received st.loss).1,
      received := (statsUpd line st.transmitted st.received st.loss).2.1,
      loss := (statsUpd line st.transmitted st.received st.loss).2.2 }
  else if rttCond line then
    { st with
      min_latency := (rttUpd line st.min_latency st.avg_latency st.max_latency).1,
      avg_latency := (rttUpd line st.min_latency st.avg_latency st.max_latency).2.1,
      max_latency := (rttUpd line st.min_latency st.avg_latency st.max_latency).2.2 }
  else st

/-- Report construction of `summarize_ping` (main.py lines 121-139); the
`result.append` sequence is rendered as one list, with the conditional
`Lost:` entry folded into the leading segment. -/
def pingRender (st : PingSt) : String :=
  if pyTruthy st.transmitted && pyTruthy st.received && pyTruthy st.loss then
    pyJoin "\n"
      ((match pyInt (st.transmitted.getD ""), pyInt (st.received.getD "") with
        | some ti, some ri =>
          ["Transmitted: " ++ st.transmitted.getD "",
           "Received: " ++ st.received.getD "",
           "Lost: " ++ toString (ti - ri),
           "Packet Loss: " ++ st.loss.getD "" ++ "%"]
        | _, _ =>
          ["Transmitted: " ++ st.transmitted.getD "",
           "Received: " ++ st.received.getD "",
           "Packet Loss: " ++ st.loss.getD "" ++ "%"]) ++
       [if pyTruthy st.min_latency then
          "Minimum RTT: " ++ st.min_latency.getD "" ++ " ms"
        else "Minimum RTT: N/A",
        if pyTruthy st.max_latency then
          "Maximum RTT: " ++ st.max_latency.getD "" ++ " ms"
        else "Maximum RTT: N/A",
        if pyTruthy st.avg_latency then
          "Average RTT: " ++ st.avg_latency.getD "" ++ " ms"
        else "Average RTT: N/A"])
  else "No valid ping summary found."

/-- `summarize_ping` (main.py lines 97-139). -/
def summarize_ping (ping_lines : List String) : String :=
  pingRender (ping_lines.foldl pingStep pingInit)

/-- A valid statistics line: it matches the statistics branch and all three
positional field extractions succeed (the extracted tokens are nonempty by
construction of `pySplit`), so this line alone makes the summary
non-sentinel. -/
def statsGood (line : String) : Bool :=
  statsMatch line && (statsParse1 line).isSome && (statsParse2 line).isSome &&
    (statsParse3 line).isSome

/-! ## `summarize_iperf` (main.py lines 141-228) -/

/-- `"sender" in l.lower()`. -/
def senderIn (l : String) : Bool := strContains (pyLower l) "sender"

/-- `"receiver" in l.lower()`. -/
def receiverIn (l : String) : Bool := strContains (pyLower l) "receiver"

/-- The summary-line filter of main.py line 143. -/
def summarySel (l : String) : Bool := senderIn l || receiverIn l

/-- `"[TX-C]" in line or "TX-C" in line` (main.py line 166). -/
def txTag (l : String) : Bool := strContains l "[TX-C]" || strContains l "TX-C"

/-- `"[RX-C]" in line or "RX-C" in line` (main.py line 171). -/
def rxTag (l : String) : Bool := strContains l "[RX-C]" || strContains l "RX-C"

/-- `len(parts) >= 7`, i.e. the line is not skipped by main.py line 150. -/
def longEnough (l : String) : Bool := decide (7 ≤ (pySplit l).length)

/-- The four bitrate variables of `summarize_iperf` (main.py line 146). -/
structure IperfSt where
  tx_sender : Option String
  tx_receiver : Option String
  rx_sender : Option String
  rx_receiver : Option String

def iperfInit : IperfSt := ⟨none, none, none, none⟩

/-- Body of the summary-line loop once `len(parts) >= 7`
(main.py lines 153-177): `parts[-3]` and `parts[-2]` are the bitrate value
and unit, `is_sender` is the substring test on the whole line. -/
def iperfSummaryUpd (st : IperfSt) (line : String) : IperfSt :=
  if txTag line then
    if senderIn line then
      { st with tx_sender := some ((pySplit line).getD ((pySplit line).length - 3) "" ++
          " " ++ (pySplit line).getD ((pySplit line).length - 2) "") }
    else
      { st with tx_receiver := some ((pySplit line).getD ((pySplit line).length - 3) "" ++
          " " ++ (pySplit line).getD ((pySplit line).length - 2) "") }
  else if rxTag line then
    if senderIn line then
      { st with rx_sender := some ((pySplit line).getD ((pySplit line).length - 3) "" ++
          " " ++ (pySplit line).getD ((pySplit line).length - 2) "") }
    else
      { st with rx_receiver := some ((pySplit line).getD ((pySplit line).length - 3) "" ++
          " " ++ (pySplit line).getD ((pySplit line).length - 2) "") }
  else st

/-- One iteration of the loop over `summary_lines`
(main.py lines 148-177). -/
def iperfSummaryStep (st : IperfSt) (line : String) : IperfSt :=
  if (pySplit line).length < 7 then st else iperfSummaryUpd st line

/-- Live TX sample filter (main.py line 182). -/
def isLiveTX (l : String) : Bool :=
  strContains l "[TX-C]" && !senderIn l && !receiverIn l

/-- Live RX sample filter (main.py line 183). -/
def isLiveRX (l : String) : Bool :=
  strContains l "[RX-C]" && !senderIn l && !receiverIn l

/-- The `for i, part in enumerate(...)` search of main.py lines 190-194:
first token containing `"bits/sec"` at index `i > 0`, paired with its
predecessor. -/
def findRateAux (toks : List String) : Nat → List String → Option String
  | _, [] => none
  | i, p :: rest =>
    if strContains p "bits/sec" && !(i == 0) then
      some (toks.getD (i - 1) "" ++ " " ++ p)
    else findRateAux toks (i + 1) rest

/-- Bitrate-unit pair extracted from one live-sample line. -/
def lastRate (line : String) : Option String :=
  findRateAux (pySplit line) 0 (pySplit line)

/-- TX half of the fallback (main.py lines 186-196). -/
def iperfFallbackTX (tx_lines : List String) (st : IperfSt) : IperfSt :=
  if !tx_lines.isEmpty && !pyTruthy st.tx_sender then
    match tx_lines.getLast? with
    | some lt =>
      match lastRate lt with
      | some v => { st with tx_sender := some v, tx_receiver := some v }
      | none => st
    | none => st
  else st

/-- RX half of the fallback (main.py lines 199-209). -/
def iperfFallbackRX (rx_lines : List String) (st : IperfSt) : IperfSt :=
  if !rx_lines.isEmpty && !pyTruthy st.rx_sender then
    match rx_lines.getLast? with
    | some lr =>
      match lastRate lr with
      | some v => { st with rx_sender := some v, rx_receiver := some v }
      | none => st
    | none => st
  else st

/-- The whole fallback block (main.py lines 180-209). The two filtered
line lists are passed in; computing them outside the guard is equivalent
since filtering is pure. -/
def iperfFallback (tx_lines rx_lines : List String) (st : IperfSt) : IperfSt :=
  if !pyTruthy st.tx_sender || !pyTruthy st.rx_sender then
    iperfFallbackRX rx_lines (iperfFallbackTX tx_lines st)
  else st

/-- The TX entry of the report, as appended by main.py lines 212-218. -/
def iperfRenderTX (st : IperfSt) : List String :=
  if pyTruthy st.tx_sender || pyTruthy st.tx_receiver then
    if pyTruthy st.tx_sender && pyTruthy st.tx_receiver then
      ["TX: " ++ st.tx_sender.getD "" ++ " (sender), " ++
        st.tx_receiver.getD "" ++ " (receiver)"]
    else if pyTruthy st.tx_sender then
      ["TX: " ++ st.tx_sender.getD "" ++ " (estimated from last measurement)"]
    else if pyTruthy st.tx_receiver then
      ["TX: " ++ st.tx_receiver.getD "" ++ " (receiver)"]
    else []
  else []

/-- The RX entry of the report, as appended by main.py lines 220-226. -/
def iperfRenderRX (st : IperfSt) : List String :=
  if pyTruthy st.rx_sender || pyTruthy st.rx_receiver then
    if pyTruthy st.rx_sender && pyTruthy st.rx_receiver then
      ["RX: " ++ st.rx_sender.getD "" ++ " (sender), " ++
        st.rx_receiver.getD "" ++ " (receiver)"]
    else if pyTruthy st.rx_sender then
      ["RX: " ++ st.rx_sender.getD "" ++ " (estimated from last measurement)"]
    else if pyTruthy st.rx_receiver then
      ["RX: " ++ st.rx_receiver.getD "" ++ " (receiver)"]
    else []
  else []

/-- Report construction of `summarize_iperf` (main.py lines 211-228):
`result` is the TX entry followed by the RX entry, and the report is the
newline-join of `result` when nonempty. -/
def iperfRender (st : IperfSt) : String :=
  if (iperfRenderTX st ++ iperfRenderRX st).isEmpty
  then "No valid iperf3 results parsed."
  else pyJoin "\n" (iperfRenderTX st ++ iperfRenderRX st)

/-- `summarize_iperf` (main.py lines 141-228). -/
def summarize_iperf (iperf_lines : List String) : String :=
  iperfRender
    (iperfFallback (iperf_lines.filter isLiveTX) (iperf_lines.filter isLiveRX)
      ((iperf_lines.filter summarySel).foldl iperfSummaryStep iperfInit))

/-- Lines that overwrite `tx_sender` in the summary loop: selected by the
line-143 filter, at least 7 tokens, TX-tagged, `"sender"` in the lowered
line. -/
def setsTxSender (l : String) : Bool :=
  summarySel l && longEnough l && txTag l && senderIn l

/-- Lines that overwrite `tx_receiver` in the summary loop. -/
def setsTxReceiver (l : String) : Bool :=
  summarySel l && longEnough l && txTag l && !senderIn l

/-! ## `seconds_to_hms` (main.py lines 230-235) -/

/-- Python `f"{n:02}"` for a nonnegative integer. -/
def pad2 (n : Nat) : String := if n < 10 then "0" ++ toString n else toString n

/-- `seconds_to_hms` (main.py lines 230-235). -/
def seconds_to_hms (seconds : Nat) : String :=
  toString (seconds / 3600) ++ ":" ++ pad2 (seconds % 3600 / 60) ++ ":" ++
    pad2 (seconds % 60)

/-! ## `__main__` argument handling (main.py lines 296-311) -/

/-- Python `list.remove(x)`: drop the first occurrence. -/
def removeFirst : List String → String → List String
  | [], _ => []
  | a :: as, x => if a == x then as else a :: removeFirst as x

/-- The positional arguments after main.py lines 300-302 (`args` after the
optional removal of one `"-v"`). -/
def posArgs (argv : List String) : List String :=
  if argv.contains "-v" then removeFirst argv "-v" else argv

/-- Outcome of the `__main__` prologue: `usageExit` is the explicit
`sys.exit(1)` of line 308; `valueError` is the uncaught exception from
`int(args[1])` at line 311 (process exit code 1); `run` means validation
passed and the benchmark run proceeds (process exit code 0 when the run
completes without error). -/
inductive MainOutcome where
  | usageExit
  | valueError
  | run (ip : String) (duration : Int) (verbose : Bool)
deriving DecidableEq

/-- main.py lines 296-311. -/
def mainParse (argv : List String) : MainOutcome :=
  if (posArgs argv).length ≠ 2 then .usageExit
  else
    match pyInt ((posArgs argv).getD 1 "") with
    | none => .valueError
    | some d => .run ((posArgs argv).getD 0 "") d (argv.contains "-v")

/-- Process exit code of each outcome. -/
def exitCode : MainOutcome → Nat
  | .usageExit => 1
  | .valueError => 1
  | .run _ _ _ => 0

/-! ## The `early_stop` cancellation flag (main.py lines 12-13)

`early_stop` is a `threading.Event`: a boolean flag with `set()`,
`clear()` and `is_set()`. The program only ever calls `set()` on it — from
the keypress handler (line 258), the SIGINT handler (line 294), the
verbose-mode interrupt handler (line 336) and the unconditional post-join
set (line 345) — and reads it with `is_set()`. A run of the flag is the
fold of the performed operations over its boolean state. -/

inductive EventOp where
  | set
  | clear
deriving DecidableEq

/-- Effect of one `threading.Event` mutation on the flag state. -/
def eventApply (_s : Bool) (op : EventOp) : Bool :=
  match op with
  | .set => true
  | .clear => false

/-- State of the flag after a sequence of mutations. -/
def eventRun (s : Bool) (ops : List EventOp) : Bool := ops.foldl eventApply s

/-! ## Concrete lines used by the claims -/

def statsLine : String := "10 packets transmitted, 8 received, 20% packet loss"

def statsLine2 : String := "99 packets transmitted, 0 received, 100% packet loss"

def statsShortLine : String := "5 packets transmitted, 4 received"

def rttLine : String := "rtt min/avg/max/mdev = 1.2/3.4/5.6/0.1 ms"

def rttLine2 : String := "rtt min/avg/max/mdev = 9.9/8.8/7.7/0.1 ms"

def rttShortLine : String := "rtt min/avg/max = 1.2/3.4"

def liveTXLine : String := "[TX-C] 1.00-2.00 sec 10 MBytes 940 Mbits/sec"

def txSenderLine : String := "[TX-C] 0.00-10.00 sec 1.10 GBytes 940 Mbits/sec sender"

def txReceiverLine : String := "[TX-C] 0.00-10.00 sec 1.09 GBytes 935 Mbits/sec receiver"

def txSenderLine2 : String := "[TX-C] 0.00-10.00 sec 0.50 GBytes 100 Mbits/sec sender"

def shortSummaryLine : String := "[TX-C] 940 Mbits/sec sender"

/-! ## Generic string and list facts -/

theorem strData_append (a b : String) : (a ++ b).data = a.data ++ b.data := rfl

theorem strExt {a b : String} (h : a.data = b.data) : a = b := by
  cases a
  cases b
  exact congrArg String.mk h

theorem mkNeEmpty {l : List Char} (h : l ≠ []) : String.mk l ≠ "" := by
  intro he
  apply h
  have hd := congrArg String.data he
  simpa using hd

theorem listStarts_self_append (n m : List Char) : listStarts n (n ++ m) = true := by
  induction n with
  | nil => rfl
  | cons a as ih => simp [listStarts, ih]

theorem listStarts_refl (n : List Char) : listStarts n n = true := by
  have h := listStarts_self_append n []
  simpa using h

theorem strStarts_self (a : String) : strStarts a a = true := listStarts_refl a.data

theorem strStarts_append (a b : String) : strStarts (a ++ b) a = true := by
  unfold strStarts
  rw [strData_append]
  exact listStarts_self_append a.data b.data

theorem strStarts_append_two (a b c : String) : strStarts ((a ++ b) ++ c) a = true := by
  unfold strStarts
  rw [strData_append, strData_append, List.append_assoc]
  exact listStarts_self_append a.data (b.data ++ c.data)

theorem pyJoin_append (sep : String) (xs ys : List String) (hx : xs ≠ []) (hy : ys ≠ []) :
    pyJoin sep (xs ++ ys) = pyJoin sep xs ++ (sep ++ pyJoin sep ys) := by
  induction xs with
  | nil => exact absurd rfl hx
  | cons x xs ih =>
    cases xs with
    | nil =>
      cases ys with
      | nil => exact absurd rfl hy
      | cons y ys => simp [pyJoin, String.append_assoc]
    | cons x2 xs2 =>
      have ih2 := ih (by simp)
      simp only [List.cons_append] at ih2 ⊢
      show x ++ sep ++ pyJoin sep (x2 :: (xs2 ++ ys)) =
        x ++ sep ++ pyJoin sep (x2 :: xs2) ++ (sep ++ pyJoin sep ys)
      rw [ih2, ← String.append_assoc]

theorem splitWsAux_mem_ne (l : List Char) : ∀ cur t, t ∈ splitWsAux l cur → t ≠ "" := by
  induction l with
  | nil =>
    intro cur t ht
    unfold splitWsAux at ht
    split at ht
    · simp at ht
    · next hc =>
      have hcur : cur ≠ [] := by
        intro hn
        subst hn
        simp at hc
      rcases List.mem_singleton.mp ht with rfl
      exact mkNeEmpty (by simp [hcur])
  | cons c rest ih =>
    intro cur t ht
    unfold splitWsAux at ht
    split at ht
    · split at ht
      · exact ih [] t ht
      · next hc =>
        have hcur : cur ≠ [] := by
          intro hn
          subst hn
          simp at hc
        rcases List.mem_cons.mp ht with rfl | hmem
        · exact mkNeEmpty (by simp [hcur])
        · exact ih [] t hmem
    · exact ih (c :: cur) t ht

theorem pySplit_mem_ne (s : String) : ∀ t ∈ pySplit s, t ≠ "" :=
  fun t ht => splitWsAux_mem_ne s.data [] t ht

theorem head_pySplit_ne {s v : String} (h : (pySplit s).head? = some v) : v ≠ "" := by
  rcases List.head?_eq_some_iff.mp h with ⟨ys, hys⟩
  exact pySplit_mem_ne s v (by rw [hys]; exact List.mem_cons_self v ys)

theorem getLast_pySplit_ne {s v : String} (h : (pySplit s).getLast? = some v) : v ≠ "" :=
  pySplit_mem_ne s v (List.mem_of_getLast?_eq_some h)

theorem pyTruthy_some {v : String} (h : v ≠ "") : pyTruthy (some v) = true := by
  simp [pyTruthy, h]

/-! ## Facts about the `summarize_ping` loop -/

theorem statsParse1_ne {line v : String} (h : statsParse1 line = some v) : v ≠ "" :=
  head_pySplit_ne h

theorem statsParse2_ne {line v : String} (h : statsParse2 line = some v) : v ≠ "" := by
  unfold statsParse2 at h
  rcases hq : ((pySplitOn ',' line).map pyStrip)[1]? with _ | p
  · rw [hq] at h
    simp at h
  · rw [hq] at h
    exact head_pySplit_ne h

theorem statsParse3_ne {line v : String} (h : statsParse3 line = some v) : v ≠ "" := by
  unfold statsParse3 at h
  rcases hq : ((pySplitOn ',' line).map pyStrip)[2]? with _ | p
  · rw [hq] at h
    simp at h
  · rw [hq] at h
    exact getLast_pySplit_ne h

theorem statsUpd_truthy {line : String} {t r l : Option String}
    (ht : pyTruthy t = true) (hr : pyTruthy r = true) (hl : pyTruthy l = true) :
    pyTruthy (statsUpd line t r l).1 = true ∧
    pyTruthy (statsUpd line t r l).2.1 = true ∧
    pyTruthy (statsUpd line t r l).2.2 = true := by
  unfold statsUpd
  rcases h1 : statsParse1 line with _ | tv
  · exact ⟨ht, hr, hl⟩
  · rcases h2 : statsParse2 line with _ | rv
    · exact ⟨pyTruthy_some (statsParse1_ne h1), hr, hl⟩
    · rcases h3 : statsParse3 line with _ | lv
      · exact ⟨pyTruthy_some (statsParse1_ne h1), pyTruthy_some (statsParse2_ne h2), hl⟩
      · exact ⟨pyTruthy_some (statsParse1_ne h1), pyTruthy_some (statsParse2_ne h2),
          pyTruthy_some (statsParse3_ne h3)⟩

theorem pingStep_stats_none (st : PingSt) (line : String) (h : statsMatch line = false) :
    (pingStep st line).transmitted = st.transmitted ∧
    (pingStep st line).received = st.received ∧
    (pingStep st line).loss = st.loss := by
  unfold pingStep
  rw [if_neg (by simp [h])]
  split
  · exact ⟨rfl, rfl, rfl⟩
  · exact ⟨rfl, rfl, rfl⟩

theorem pingFold_stats_none (lines : List String) (st : PingSt)
    (h : ∀ l ∈ lines, statsMatch l = false) :
    ((lines.foldl pingStep st).transmitted = st.transmitted) ∧
    ((lines.foldl pingStep st).received = st.received) ∧
    ((lines.foldl pingStep st).loss = st.loss) := by
  induction lines generalizing st with
  | nil => exact ⟨rfl, rfl, rfl⟩
  | cons a t ih =>
    have ha := pingStep_stats_none st a (h a (List.mem_cons_self a t))
    have ht := ih (pingStep st a) (fun l hl => h l (List.mem_cons_of_mem a hl))
    rw [List.foldl_cons]
    exact ⟨ht.1.trans ha.1, ht.2.1.trans ha.2.1, ht.2.2.trans ha.2.2⟩

theorem pingStep_rtt_none (st : PingSt) (line : String)
    (h : (!statsMatch line && rttCond line) = false) :
    (pingStep st line).min_latency = st.min_latency ∧
    (pingStep st line).avg_latency = st.avg_latency ∧
    (pingStep st line).max_latency = st.max_latency := by
  unfold pingStep
  by_cases hs : statsMatch line = true
  · rw [if_pos hs]
    exact ⟨rfl, rfl, rfl⟩
  · have hs' : statsMatch line = false := by
      revert hs
      cases statsMatch line <;> simp
    have hr : rttCond line = false := by
      rw [hs'] at h
      simpa using h
    rw [if_neg (by simp [hs']), if_neg (by simp [hr])]
    exact ⟨rfl, rfl, rfl⟩

theorem pingFold_rtt_none (lines : List String) (st : PingSt)
    (h : ∀ l ∈ lines, (!statsMatch l && rttCond l) = false) :
    ((lines.foldl pingStep st).min_latency = st.min_latency) ∧
    ((lines.foldl pingStep st).avg_latency = st.avg_latency) ∧
    ((lines.foldl pingStep st).max_latency = st.max_latency) := by
  induction lines generalizing st with
  | nil => exact ⟨rfl, rfl, rfl⟩
  | cons a t ih =>
    have ha := pingStep_rtt_none st a (h a (List.mem_cons_self a t))
    have ht := ih (pingStep st a) (fun l hl => h l (List.mem_cons_of_mem a hl))
    rw [List.foldl_cons]
    exact ⟨ht.1.trans ha.1, ht.2.1.trans ha.2.1, ht.2.2.trans ha.2.2⟩

theorem pingStep_truthy (st : PingSt) (line : String)
    (h : pyTruthy st.transmitted = true ∧ pyTruthy st.received = true ∧
      pyTruthy st.loss = true) :
    pyTruthy (pingStep st line).transmitted = true ∧
    pyTruthy (pingStep st line).received = true ∧
    pyTruthy (pingStep st line).loss = true := by
  unfold pingStep
  split
  · exact statsUpd_truthy h.1 h.2.1 h.2.2
  · split
    · exact h
    · exact h

theorem pingFold_truthy (lines : List String) (st : PingSt)
    (h : pyTruthy st.transmitted = true ∧ pyTruthy st.received = true ∧
      pyTruthy st.loss = true) :
    pyTruthy ((lines.foldl pingStep st)).transmitted = true ∧
    pyTruthy ((lines.foldl pingStep st)).received = true ∧
    pyTruthy ((lines.foldl pingStep st)).loss = true := by
  induction lines generalizing st with
  | nil => exact h
  | cons a t ih =>
    rw [List.foldl_cons]
    exact ih (pingStep st a) (pingStep_truthy st a h)

theorem pingStep_statsLine (st : PingSt) :
    (pingStep st statsLine).transmitted = some "10" ∧
    (pingStep st statsLine).received = some "8" ∧
    (pingStep st statsLine).loss = some "20" := ⟨rfl, rfl, rfl⟩

theorem pingStep_rttLine (st : PingSt) :
    (pingStep st rttLine).min_latency = some "1.2" ∧
    (pingStep st rttLine).avg_latency = some "3.4" ∧
    (pingStep st rttLine).max_latency = some "5.6" := ⟨rfl, rfl, rfl⟩

theorem pingRender_no_transmitted (st : PingSt) (h : st.transmitted = none) :
    pingRender st = "No valid ping summary found." := by
  unfold pingRender
  rw [h]
  rfl

theorem statsUpd_loss_none {line : String} (h3 : statsParse3 line = none)
    (t r l : Option String) : (statsUpd line t r l).2.2 = l := by
  unfold statsUpd
  rcases h1 : statsParse1 line with _ | tv
  · rfl
  · rcases h2 : statsParse2 line with _ | rv
    · rfl
    · rw [h3]

theorem pingStep_loss_none (st : PingSt) (line : String)
    (h : statsMatch line = true → statsParse3 line = none) :
    (pingStep st line).loss = st.loss := by
  unfold pingStep
  by_cases hs : statsMatch line = true
  · rw [if_pos hs]
    exact statsUpd_loss_none (h hs) _ _ _
  · rw [if_neg hs]
    split
    · rfl
    · rfl

theorem pingFold_loss_none (lines : List String) (st : PingSt)
    (h : ∀ l ∈ lines, statsMatch l = true → statsParse3 l = none) :
    (lines.foldl pingStep st).loss = st.loss := by
  induction lines generalizing st with
  | nil => rfl
  | cons a t ih =>
    rw [List.foldl_cons]
    exact (ih (pingStep st a) (fun l hl => h l (List.mem_cons_of_mem a hl))).trans
      (pingStep_loss_none st a (h a (List.mem_cons_self a t)))

theorem pingRender_no_loss (st : PingSt) (h : st.loss = none) :
    pingRender st = "No valid ping summary found." := by
  unfold pingRender
  rw [if_neg (by rw [h]; simp [pyTruthy])]

theorem statsGood_step {sL : String} (hgood : statsGood sL = true) (st : PingSt) :
    pyTruthy (pingStep st sL).transmitted = true ∧
    pyTruthy (pingStep st sL).received = true ∧
    pyTruthy (pingStep st sL).loss = true := by
  unfold statsGood at hgood
  simp only [Bool.and_eq_true, Option.isSome_iff_exists] at hgood
  obtain ⟨⟨⟨hm, tv, h1⟩, rv, h2⟩, lv, h3⟩ := hgood
  unfold pingStep
  rw [if_pos hm]
  show pyTruthy (statsUpd sL st.transmitted st.received st.loss).1 = true ∧
    pyTruthy (statsUpd sL st.transmitted st.received st.loss).2.1 = true ∧
    pyTruthy (statsUpd sL st.transmitted st.received st.loss).2.2 = true
  unfold statsUpd
  rw [h1, h2, h3]
  exact ⟨pyTruthy_some (statsParse1_ne h1), pyTruthy_some (statsParse2_ne h2),
    pyTruthy_some (statsParse3_ne h3)⟩

theorem pingRender_stats10 (st : PingSt) (h1 : st.transmitted = some "10")
    (h2 : st.received = some "8") (h3 : st.loss = some "20") :
    strStarts (pingRender st)
      "Transmitted: 10\nReceived: 8\nLost: 2\nPacket Loss: 20%" = true := by
  unfold pingRender
  rw [h1, h2, h3]
  rfl

theorem pingRender_rtt_vals (st : PingSt)
    (ht : pyTruthy st.transmitted = true) (hr : pyTruthy st.received = true)
    (hl : pyTruthy st.loss = true)
    (h4 : st.min_latency = some "1.2") (h5 : st.avg_latency = some "3.4")
    (h6 : st.max_latency = some "5.6") :
    ∃ X, pingRender st =
      X ++ "\nMinimum RTT: 1.2 ms\nMaximum RTT: 5.6 ms\nAverage RTT: 3.4 ms" := by
  unfold pingRender
  rw [if_pos (show (pyTruthy st.transmitted && pyTruthy st.received &&
    pyTruthy st.loss) = true by simp [ht, hr, hl])]
  rw [h4, h5, h6]
  rcases hpt : pyInt (st.transmitted.getD "") with _ | ti
  · rcases hpr : pyInt (st.received.getD "") with _ | ri
    · refine ⟨pyJoin "\n" ["Transmitted: " ++ st.transmitted.getD "",
        "Received: " ++ st.received.getD "",
        "Packet Loss: " ++ st.loss.getD "" ++ "%"], ?_⟩
      rw [pyJoin_append "\n" _ _ (by simp) (by simp)]
      rfl
    · refine ⟨pyJoin "\n" ["Transmitted: " ++ st.transmitted.getD "",
        "Received: " ++ st.received.getD "",
        "Packet Loss: " ++ st.loss.getD "" ++ "%"], ?_⟩
      rw [pyJoin_append "\n" _ _ (by simp) (by simp)]
      rfl
  · rcases hpr : pyInt (st.received.getD "") with _ | ri
    · refine ⟨pyJoin "\n" ["Transmitted: " ++ st.transmitted.getD "",
        "Received: " ++ st.received.getD "",
        "Packet Loss: " ++ st.loss.getD "" ++ "%"], ?_⟩
      rw [pyJoin_append "\n" _ _ (by simp) (by simp)]
      rfl
    · refine ⟨pyJoin "\n" ["Transmitted: " ++ st.transmitted.getD "",
        "Received: " ++ st.received.getD "",
        "Lost: " ++ toString (ti - ri),
        "Packet Loss: " ++ st.loss.getD "" ++ "%"], ?_⟩
      rw [pyJoin_append "\n" _ _ (by simp) (by simp)]
      rfl

/-! ## Claims about `summarize_ping` -/

/-- Claim C7: for every input line list containing no line with
"packets transmitted" (case-insensitively), `summarize_ping` returns
exactly the sentinel text "No valid ping summary found.", even if a
parsable RTT line is present. -/
theorem ping_no_stats_sentinel (lines : List String)
    (h : ∀ l ∈ lines, statsMatch l = false) :
    summarize_ping lines = "No valid ping summary found." := by
  unfold summarize_ping
  exact pingRender_no_transmitted _ ((pingFold_stats_none lines pingInit h).1)

/-- Witness for C7: a list holding only a parsable RTT line still yields
the sentinel. -/
theorem ping_no_stats_sentinel_witness :
    summarize_ping [rttLine] = "No valid ping summary found." :=
  ping_no_stats_sentinel [rttLine] (by decide)

/-- Counterexample to C5 as stated: the input contains the line
"10 packets transmitted, 8 received, 20% packet loss", yet the produced
summary reports transmitted = 99 (a later statistics line overwrites the
fields), not transmitted = 10. -/
theorem ping_stats_overwrite_cex :
    summarize_ping [statsLine, statsLine2] =
      "Transmitted: 99\nReceived: 0\nLost: 99\nPacket Loss: 100%\nMinimum RTT: N/A\nMaximum RTT: N/A\nAverage RTT: N/A" ∧
    strContains (summarize_ping [statsLine, statsLine2]) "Transmitted: 10" = false :=
  ⟨by decide, by decide⟩

/-- Claim C5 (amended): for every input line list whose LAST line matching
the statistics branch is "10 packets transmitted, 8 received, 20% packet
loss", the produced summary reports transmitted = 10, received = 8,
lost = 2 and packet loss = 20%. -/
theorem ping_stats_last_line (lines pre post : List String)
    (hdec : lines = pre ++ statsLine :: post)
    (hpost : ∀ l ∈ post, statsMatch l = false) :
    strStarts (summarize_ping lines)
      "Transmitted: 10\nReceived: 8\nLost: 2\nPacket Loss: 20%" = true := by
  subst hdec
  unfold summarize_ping
  rw [List.foldl_append, List.foldl_cons]
  have hf := pingFold_stats_none post
    (pingStep (pre.foldl pingStep pingInit) statsLine) hpost
  have hs := pingStep_statsLine (pre.foldl pingStep pingInit)
  exact pingRender_stats10 _ (hf.1.trans hs.1) (hf.2.1.trans hs.2.1)
    (hf.2.2.trans hs.2.2)

/-- Witness for the amended C5 at a concrete input. -/
theorem ping_stats_last_line_witness :
    strStarts (summarize_ping [statsLine])
      "Transmitted: 10\nReceived: 8\nLost: 2\nPacket Loss: 20%" = true :=
  ping_stats_last_line [statsLine] [] [] rfl (by simp)

/-- Counterexample to C6 as stated: the input contains a valid statistics
line and the RTT line "rtt min/avg/max/mdev = 1.2/3.4/5.6/0.1 ms", yet the
summary reports minimum RTT 9.9 (a later RTT line overwrites the fields),
not 1.2. -/
theorem ping_rtt_overwrite_cex :
    summarize_ping [statsLine, rttLine, rttLine2] =
      "Transmitted: 10\nReceived: 8\nLost: 2\nPacket Loss: 20%\nMinimum RTT: 9.9 ms\nMaximum RTT: 7.7 ms\nAverage RTT: 8.8 ms" ∧
    strContains (summarize_ping [statsLine, rttLine, rttLine2])
      "Minimum RTT: 1.2 ms" = false :=
  ⟨by decide, by decide⟩

/-- Claim C6 (amended): for every input line list containing a valid
statistics line and whose LAST line matching the RTT branch is
"rtt min/avg/max/mdev = 1.2/3.4/5.6/0.1 ms", the produced summary reports
minimum RTT 1.2, average RTT 3.4 and maximum RTT 5.6 (the summary ends
with exactly those three report lines). -/
theorem ping_rtt_last_line (lines u w p2 q2 : List String) (sL : String)
    (hs : lines = u ++ sL :: w) (hgood : statsGood sL = true)
    (hr : lines = p2 ++ rttLine :: q2)
    (hq : ∀ l ∈ q2, (!statsMatch l && rttCond l) = false) :
    ∃ X, summarize_ping lines =
      X ++ "\nMinimum RTT: 1.2 ms\nMaximum RTT: 5.6 ms\nAverage RTT: 3.4 ms" := by
  have htru : pyTruthy (lines.foldl pingStep pingInit).transmitted = true ∧
      pyTruthy (lines.foldl pingStep pingInit).received = true ∧
      pyTruthy (lines.foldl pingStep pingInit).loss = true := by
    rw [hs, List.foldl_append, List.foldl_cons]
    exact pingFold_truthy w _ (statsGood_step hgood (u.foldl pingStep pingInit))
  have hlat : (lines.foldl pingStep pingInit).min_latency = some "1.2" ∧
      (lines.foldl pingStep pingInit).avg_latency = some "3.4" ∧
      (lines.foldl pingStep pingInit).max_latency = some "5.6" := by
    rw [hr, List.foldl_append, List.foldl_cons]
    have hp := pingFold_rtt_none q2
      (pingStep (p2.foldl pingStep pingInit) rttLine) hq
    have hstep := pingStep_rttLine (p2.foldl pingStep pingInit)
    exact ⟨hp.1.trans hstep.1, hp.2.1.trans hstep.2.1, hp.2.2.trans hstep.2.2⟩
  exact pingRender_rtt_vals _ htru.1 htru.2.1 htru.2.2 hlat.1 hlat.2.1 hlat.2.2

/-- Witness for the amended C6 at a concrete input. -/
theorem ping_rtt_last_line_witness :
    ∃ X, summarize_ping [statsLine, rttLine] =
      X ++ "\nMinimum RTT: 1.2 ms\nMaximum RTT: 5.6 ms\nAverage RTT: 3.4 ms" :=
  ping_rtt_last_line [statsLine, rttLine] [] [rttLine] [statsLine] [] statsLine
    rfl (by decide) rfl (by simp)

/-- Counterexample to C2 as stated: the statistics line
"5 packets transmitted, 4 received" has parsable transmitted and received
fields and a missing loss field, yet the whole summary is replaced by the
sentinel and the transmitted/received counts are not reported. -/
theorem missing_loss_sentinel_cex :
    summarize_ping [statsShortLine] = "No valid ping summary found." ∧
    strContains (summarize_ping [statsShortLine]) "Transmitted: 5" = false :=
  ⟨by decide, by decide⟩

/-- Claim C2 (amended): a missing or malformed field in a matched RTT line
only degrades that field to "N/A" (second conjunct, where the RTT line
"rtt min/avg/max = 1.2/3.4" lacks the max field); but a missing loss field
in the statistics line is fatal: if every line matching the statistics
branch fails the loss extraction, the whole summary is the sentinel, and
the transmitted/received counts are not reported (first conjunct). -/
theorem ping_field_tolerance_amended :
    (∀ lines : List String,
      (∀ l ∈ lines, statsMatch l = true → statsParse3 l = none) →
      summarize_ping lines = "No valid ping summary found.") ∧
    summarize_ping [statsLine, rttShortLine] =
      "Transmitted: 10\nReceived: 8\nLost: 2\nPacket Loss: 20%\nMinimum RTT: 1.2 ms\nMaximum RTT: N/A\nAverage RTT: 3.4 ms" := by
  constructor
  · intro lines h
    unfold summarize_ping
    exact pingRender_no_loss _ (pingFold_loss_none lines pingInit h)
  · decide

/-- Witness for the amended C2: the statistics line with a missing loss
field yields the sentinel. -/
theorem ping_field_tolerance_amended_witness :
    summarize_ping [statsShortLine] = "No valid ping summary found." :=
  ping_field_tolerance_amended.1 [statsShortLine] (by decide)

/-! ## Claim C9: `seconds_to_hms` -/

theorem pad2_len : ∀ m : Nat, m < 100 → (pad2 m).length = 2 := by decide

/-- Claim C9: for every nonnegative integer `n`, `seconds_to_hms n` is
H:MM:SS with H = n / 3600 unpadded, MM = (n % 3600) / 60 and SS = n % 60
zero-padded to two digits, and the three components reconstruct `n`. -/
theorem seconds_to_hms_fields (n : Nat) :
    ∃ H M S : Nat,
      seconds_to_hms n = toString H ++ ":" ++ pad2 M ++ ":" ++ pad2 S ∧
      H = n / 3600 ∧ M = n % 3600 / 60 ∧ S = n % 60 ∧
      H * 3600 + M * 60 + S = n ∧
      (pad2 M).length = 2 ∧ (pad2 S).length = 2 := by
  refine ⟨n / 3600, n % 3600 / 60, n % 60, rfl, rfl, rfl, rfl, by omega, ?_, ?_⟩
  · exact pad2_len _ (by omega)
  · exact pad2_len _ (by omega)

/-! ## Claim C8: the `early_stop` flag -/

theorem eventRun_true_sets (ops : List EventOp)
    (h : ∀ o ∈ ops, o = EventOp.set) : eventRun true ops = true := by
  induction ops with
  | nil => rfl
  | cons o t ih =>
    have ho := h o (List.mem_cons_self o t)
    subst ho
    exact ih (fun o ho2 => h o (List.mem_cons_of_mem _ ho2))

/-- Claim C8: the program only ever performs `set()` operations on the
`early_stop` event (keypress handler, SIGINT handler, verbose interrupt
handler, unconditional post-join set). Any nonempty such sequence leaves
the flag in the same state as a single `set()`, from any starting state;
and once the flag is true, no sequence of the program's operations ever
clears it. -/
theorem early_stop_set_idem (s : Bool) (ops : List EventOp)
    (h : ∀ o ∈ ops, o = EventOp.set) :
    (ops ≠ [] → eventRun s ops = eventRun s [EventOp.set]) ∧
    eventRun true ops = true := by
  constructor
  · intro hne
    cases ops with
    | nil => exact absurd rfl hne
    | cons o t =>
      have ho := h o (List.mem_cons_self o t)
      subst ho
      show eventRun true t = eventRun s [EventOp.set]
      rw [eventRun_true_sets t (fun o ho2 => h o (List.mem_cons_of_mem _ ho2))]
      rfl
  · exact eventRun_true_sets ops h

/-- Witness for C8: three sets from a cleared flag behave as one set. -/
theorem early_stop_set_idem_witness :
    ([EventOp.set, EventOp.set, EventOp.set] ≠ [] →
      eventRun false [EventOp.set, EventOp.set, EventOp.set] =
        eventRun false [EventOp.set]) ∧
    eventRun true [EventOp.set, EventOp.set, EventOp.set] = true :=
  early_stop_set_idem false [EventOp.set, EventOp.set, EventOp.set] (by decide)

/-! ## Claim C3: argument handling -/

/-- Counterexample to C3 as stated: `["10.0.0.1", "five"]` has exactly two
positional arguments, yet the program does not exit with code 0: line 311
(`duration = int(args[1])`) raises an uncaught `ValueError`, so the
process exits with code 1. -/
theorem arg_count_exit_cex :
    mainParse ["10.0.0.1", "five"] = MainOutcome.valueError ∧
    exitCode (mainParse ["10.0.0.1", "five"]) = 1 := by decide

/-- Claim C3 (amended): with the positional count (after removing one
`"-v"`) different from 2 the program prints usage and exits 1; with
exactly two positionals it exits 0 only when the second parses as a
Python integer (and the run then completes); a non-integer duration
raises and the process exits 1. -/
theorem arg_count_exit_amended (argv : List String) :
    ((posArgs argv).length ≠ 2 →
      mainParse argv = MainOutcome.usageExit ∧ exitCode (mainParse argv) = 1) ∧
    (∀ d : Int, (posArgs argv).length = 2 →
      pyInt ((posArgs argv).getD 1 "") = some d →
      mainParse argv =
        MainOutcome.run ((posArgs argv).getD 0 "") d (argv.contains "-v") ∧
      exitCode (mainParse argv) = 0) ∧
    ((posArgs argv).length = 2 → pyInt ((posArgs argv).getD 1 "") = none →
      mainParse argv = MainOutcome.valueError ∧ exitCode (mainParse argv) = 1) := by
  refine ⟨?_, ?_, ?_⟩
  · intro h
    unfold mainParse
    rw [if_pos h]
    exact ⟨rfl, rfl⟩
  · intro d h hd
    unfold mainParse
    rw [if_neg (fun hc => hc h), hd]
    exact ⟨rfl, rfl⟩
  · intro h hn
    unfold mainParse
    rw [if_neg (fun hc => hc h), hn]
    exact ⟨rfl, rfl⟩

/-- Witness for the amended C3: both the usage-error branch and the
successful branch at concrete argument lists. -/
theorem arg_count_exit_amended_witness :
    mainParse ["-v", "192.168.0.2", "10"] = MainOutcome.run "192.168.0.2" 10 true ∧
    exitCode (mainParse ["-v", "192.168.0.2", "10"]) = 0 :=
  (arg_count_exit_amended ["-v", "192.168.0.2", "10"]).2.1 10 (by decide) (by decide)

/-! ## Facts about the `summarize_iperf` loop -/

theorem iperfStep_short {line : String} (h : (pySplit line).length < 7)
    (st : IperfSt) : iperfSummaryStep st line = st := by
  unfold iperfSummaryStep
  rw [if_pos h]

theorem iperfStep_tx_sender_pres (st : IperfSt) (line : String)
    (h : (longEnough line && txTag line && senderIn line) = false) :
    (iperfSummaryStep st line).tx_sender = st.tx_sender := by
  unfold iperfSummaryStep
  by_cases h7 : (pySplit line).length < 7
  · rw [if_pos h7]
  · rw [if_neg h7]
    have hle : longEnough line = true := by
      unfold longEnough
      simpa using Nat.le_of_not_lt h7
    rw [hle] at h
    simp only [Bool.true_and] at h
    unfold iperfSummaryUpd
    by_cases htx : txTag line = true
    · rw [if_pos htx]
      rw [htx] at h
      simp only [Bool.true_and] at h
      rw [if_neg (by simp [h])]
    · rw [if_neg htx]
      split
      · split <;> rfl
      · rfl

theorem iperfStep_tx_receiver_pres (st : IperfSt) (line : String)
    (h : (longEnough line && txTag line && !senderIn line) = false) :
    (iperfSummaryStep st line).tx_receiver = st.tx_receiver := by
  unfold iperfSummaryStep
  by_cases h7 : (pySplit line).length < 7
  · rw [if_pos h7]
  · rw [if_neg h7]
    have hle : longEnough line = true := by
      unfold longEnough
      simpa using Nat.le_of_not_lt h7
    rw [hle] at h
    simp only [Bool.true_and] at h
    unfold iperfSummaryUpd
    by_cases htx : txTag line = true
    · rw [if_pos htx]
      rw [htx] at h
      simp only [Bool.true_and, Bool.not_eq_false'] at h
      rw [if_pos h]
    · rw [if_neg htx]
      split
      · split <;> rfl
      · rfl

theorem iperfFold_tx_sender_pres (ls : List String) (st : IperfSt)
    (h : ∀ l ∈ ls, (longEnough l && txTag l && senderIn l) = false) :
    (ls.foldl iperfSummaryStep st).tx_sender = st.tx_sender := by
  induction ls generalizing st with
  | nil => rfl
  | cons a t ih =>
    rw [List.foldl_cons]
    exact (ih (iperfSummaryStep st a) (fun l hl => h l (List.mem_cons_of_mem a hl))).trans
      (iperfStep_tx_sender_pres st a (h a (List.mem_cons_self a t)))

theorem iperfFold_tx_receiver_pres (ls : List String) (st : IperfSt)
    (h : ∀ l ∈ ls, (longEnough l && txTag l && !senderIn l) = false) :
    (ls.foldl iperfSummaryStep st).tx_receiver = st.tx_receiver := by
  induction ls generalizing st with
  | nil => rfl
  | cons a t ih =>
    rw [List.foldl_cons]
    exact (ih (iperfSummaryStep st a) (fun l hl => h l (List.mem_cons_of_mem a hl))).trans
      (iperfStep_tx_receiver_pres st a (h a (List.mem_cons_self a t)))

theorem iperfStep_txSenderLine (st : IperfSt) :
    (iperfSummaryStep st txSenderLine).tx_sender = some "940 Mbits/sec" := rfl

theorem iperfStep_txReceiverLine (st : IperfSt) :
    (iperfSummaryStep st txReceiverLine).tx_receiver = some "935 Mbits/sec" := rfl

theorem iperfFallbackRX_tx_pres (rxl : List String) (st : IperfSt) :
    (iperfFallbackRX rxl st).tx_sender = st.tx_sender ∧
    (iperfFallbackRX rxl st).tx_receiver = st.tx_receiver := by
  unfold iperfFallbackRX
  split
  · split
    · split
      · exact ⟨rfl, rfl⟩
      · exact ⟨rfl, rfl⟩
    · exact ⟨rfl, rfl⟩
  · exact ⟨rfl, rfl⟩

theorem iperfFallback_tx_pres (txl rxl : List String) (st : IperfSt)
    (h : pyTruthy st.tx_sender = true) :
    (iperfFallback txl rxl st).tx_sender = st.tx_sender ∧
    (iperfFallback txl rxl st).tx_receiver = st.tx_receiver := by
  unfold iperfFallback
  split
  · have htx : iperfFallbackTX txl st = st := by
      unfold iperfFallbackTX
      rw [if_neg (by simp [h])]
    rw [htx]
    exact iperfFallbackRX_tx_pres rxl st
  · exact ⟨rfl, rfl⟩

theorem findRateAux_ne (toks : List String) :
    ∀ i rest v, findRateAux toks i rest = some v → v ≠ "" := by
  intro i rest
  induction rest generalizing i with
  | nil =>
    intro v h
    simp [findRateAux] at h
  | cons pp t ih =>
    intro v h
    unfold findRateAux at h
    split at h
    · have hv := Option.some.inj h
      subst hv
      intro he
      have hd := congrArg String.data he
      rw [strData_append, strData_append] at hd
      simp at hd
    · exact ih (i + 1) v h

theorem lastRate_ne {L v : String} (h : lastRate L = some v) : v ≠ "" :=
  findRateAux_ne (pySplit L) 0 (pySplit L) v h

theorem strStarts_pyJoin_single (sep x : String) :
    strStarts (pyJoin sep [x]) x = true := strStarts_self x

theorem strStarts_pyJoin_double (sep x y : String) :
    strStarts (pyJoin sep [x, y]) x = true := strStarts_append_two x sep y

theorem iperfRender_pair (st : IperfSt) (h1 : st.tx_sender = some "940 Mbits/sec")
    (h2 : st.tx_receiver = some "935 Mbits/sec") :
    strContains (iperfRender st) "940 Mbits/sec (sender)" = true ∧
    strContains (iperfRender st) "935 Mbits/sec (receiver)" = true := by
  unfold iperfRender iperfRenderTX iperfRenderRX
  rw [h1, h2]
  cases hrs : pyTruthy st.rx_sender <;> cases hrr : pyTruthy st.rx_receiver <;>
    exact ⟨rfl, rfl⟩

/-! ## Claims about `summarize_iperf` -/

/-- Counterexample to C4 as stated: the input contains the required TX-C
sender line with "940 Mbits/sec" and TX-C receiver line with
"935 Mbits/sec", yet a later TX-C sender summary line overwrites the
sender value, so the report does not contain "940 Mbits/sec" labeled
(sender). -/
theorem iperf_pair_overwrite_cex :
    summarize_iperf [txSenderLine, txReceiverLine, txSenderLine2] =
      "TX: 100 Mbits/sec (sender), 935 Mbits/sec (receiver)" ∧
    strContains (summarize_iperf [txSenderLine, txReceiverLine, txSenderLine2])
      "940 Mbits/sec (sender)" = false :=
  ⟨by decide, by decide⟩

/-- Claim C4 (amended): for every input line list in which the LAST line
that would overwrite the TX sender slot is the TX-C sender summary line
with "940 Mbits/sec", and the LAST line that would overwrite the TX
receiver slot is the TX-C receiver summary line with "935 Mbits/sec", the
report contains "940 Mbits/sec (sender)" and "935 Mbits/sec (receiver)". -/
theorem iperf_pair_last_lines (lines p1 q1 p2 q2 : List String)
    (h1 : lines = p1 ++ txSenderLine :: q1)
    (hq1 : ∀ l ∈ q1, setsTxSender l = false)
    (h2 : lines = p2 ++ txReceiverLine :: q2)
    (hq2 : ∀ l ∈ q2, setsTxReceiver l = false) :
    strContains (summarize_iperf lines) "940 Mbits/sec (sender)" = true ∧
    strContains (summarize_iperf lines) "935 Mbits/sec (receiver)" = true := by
  have hts : ((lines.filter summarySel).foldl iperfSummaryStep iperfInit).tx_sender
      = some "940 Mbits/sec" := by
    rw [h1, List.filter_append,
      List.filter_cons_of_pos (show summarySel txSenderLine = true from rfl),
      List.foldl_append, List.foldl_cons]
    have hpres := iperfFold_tx_sender_pres (q1.filter summarySel)
      (iperfSummaryStep ((p1.filter summarySel).foldl iperfSummaryStep iperfInit)
        txSenderLine)
      (fun l hl => by
        have hm := List.mem_filter.mp hl
        have hx := hq1 l hm.1
        unfold setsTxSender at hx
        rw [hm.2] at hx
        simpa using hx)
    exact hpres.trans (iperfStep_txSenderLine _)
  have htr : ((lines.filter summarySel).foldl iperfSummaryStep iperfInit).tx_receiver
      = some "935 Mbits/sec" := by
    rw [h2, List.filter_append,
      List.filter_cons_of_pos (show summarySel txReceiverLine = true from rfl),
      List.foldl_append, List.foldl_cons]
    have hpres := iperfFold_tx_receiver_pres (q2.filter summarySel)
      (iperfSummaryStep ((p2.filter summarySel).foldl iperfSummaryStep iperfInit)
        txReceiverLine)
      (fun l hl => by
        have hm := List.mem_filter.mp hl
        have hx := hq2 l hm.1
        unfold setsTxReceiver at hx
        rw [hm.2] at hx
        simpa using hx)
    exact hpres.trans (iperfStep_txReceiverLine _)
  unfold summarize_iperf
  have hfb := iperfFallback_tx_pres (lines.filter isLiveTX) (lines.filter isLiveRX)
    ((lines.filter summarySel).foldl iperfSummaryStep iperfInit)
    (by rw [hts]; rfl)
  exact iperfRender_pair _ (hfb.1.trans hts) (hfb.2.trans htr)

/-- Witness for the amended C4 at the two-line input. -/
theorem iperf_pair_last_lines_witness :
    strContains (summarize_iperf [txSenderLine, txReceiverLine])
      "940 Mbits/sec (sender)" = true ∧
    strContains (summarize_iperf [txSenderLine, txReceiverLine])
      "935 Mbits/sec (receiver)" = true :=
  iperf_pair_last_lines [txSenderLine, txReceiverLine]
    [] [txReceiverLine] [txSenderLine] []
    rfl (by decide) rfl (by decide)

/-- Claim C10: a line containing "sender" or "receiver"
(case-insensitively) that splits into fewer than 7 whitespace tokens is
skipped: deleting it from the input leaves the whole produced report
unchanged, so it contributes nothing to any of the four bitrate fields. -/
theorem iperf_short_line_skipped (l : String) (h1 : summarySel l = true)
    (h2 : (pySplit l).length < 7) (pre post : List String) :
    summarize_iperf (pre ++ l :: post) = summarize_iperf (pre ++ post) := by
  have hsel : senderIn l = true ∨ receiverIn l = true := by
    unfold summarySel at h1
    cases hs : senderIn l
    · cases hr : receiverIn l
      · rw [hs, hr] at h1
        simp at h1
      · exact Or.inr rfl
    · exact Or.inl rfl
  have hlive_tx : isLiveTX l = false := by
    rcases hsel with hs | hr
    · simp [isLiveTX, hs]
    · simp [isLiveTX, hr]
  have hlive_rx : isLiveRX l = false := by
    rcases hsel with hs | hr
    · simp [isLiveRX, hs]
    · simp [isLiveRX, hr]
  unfold summarize_iperf
  rw [List.filter_append, List.filter_append, List.filter_append,
    List.filter_cons_of_pos h1,
    List.filter_cons_of_neg (by simp [hlive_tx]),
    List.filter_cons_of_neg (by simp [hlive_rx]),
    List.foldl_append, List.foldl_cons, iperfStep_short h2,
    ← List.foldl_append]
  rw [← List.filter_append, ← List.filter_append, ← List.filter_append]

/-- Witness for C10: dropping a 4-token sender-tagged line leaves the
report unchanged. -/
theorem iperf_short_line_skipped_witness :
    summarize_iperf ([liveTXLine] ++ shortSummaryLine :: []) =
      summarize_iperf ([liveTXLine] ++ []) :=
  iperf_short_line_skipped shortSummaryLine (by decide) (by decide) [liveTXLine] []

theorem iperfRenderTX_both (st : IperfSt) (v : String) (hne : v ≠ "")
    (h1 : st.tx_sender = some v) (h2 : st.tx_receiver = some v) :
    iperfRenderTX st = ["TX: " ++ v ++ " (sender), " ++ v ++ " (receiver)"] := by
  have hb : pyTruthy (some v) = true := pyTruthy_some hne
  unfold iperfRenderTX
  rw [h1, h2, hb]
  rfl

theorem iperfRender_starts_tx (st : IperfSt) (x : String)
    (htx : iperfRenderTX st = [x]) :
    strStarts (iperfRender st) x = true := by
  unfold iperfRender
  rw [htx, List.singleton_append, if_neg (by simp)]
  cases hrx : iperfRenderRX st with
  | nil => exact strStarts_pyJoin_single "\n" x
  | cons y ys => exact strStarts_append_two x "\n" (pyJoin "\n" (y :: ys))

/-- Counterexample to C1 as stated: the input consists of a single
live-sample TX line (no summary lines), yet the report labels the
extracted bitrate "(sender)" and "(receiver)" — it contains no
"estimated" label at all, because the fallback fills both roles. -/
theorem live_tx_not_estimated_cex :
    summarize_iperf [liveTXLine] =
      "TX: 940 Mbits/sec (sender), 940 Mbits/sec (receiver)" ∧
    strContains (summarize_iperf [liveTXLine]) "estimated" = false :=
  ⟨by decide, by decide⟩

/-- Claim C1 (amended): for every input line list with no summary
(sender/receiver) lines whose last live-sample TX line `L` yields the
bitrate-unit pair `v`, the report uses `v` for BOTH roles, labelled
"(sender)" and "(receiver)" (not "estimated"). -/
theorem live_tx_fallback_both_roles (lines p q : List String) (L v : String)
    (hall : ∀ l ∈ lines, summarySel l = false)
    (hdec : lines = p ++ L :: q)
    (hL : strContains L "[TX-C]" = true)
    (hq : ∀ l ∈ q, isLiveTX l = false)
    (hv : lastRate L = some v) :
    strStarts (summarize_iperf lines)
      ("TX: " ++ v ++ " (sender), " ++ v ++ " (receiver)") = true := by
  have hvne : v ≠ "" := lastRate_ne hv
  have hempty : lines.filter summarySel = [] :=
    List.filter_eq_nil_iff.mpr (fun a ha => by simp [hall a ha])
  have hLlive : isLiveTX L = true := by
    have hsel := hall L (by rw [hdec]; exact List.mem_append_right p (List.mem_cons_self L q))
    unfold summarySel at hsel
    have hs : senderIn L = false := by
      cases hx : senderIn L
      · rfl
      · rw [hx] at hsel
        simp at hsel
    have hr : receiverIn L = false := by
      cases hx : receiverIn L
      · rfl
      · rw [hx] at hsel
        simp at hsel
    simp [isLiveTX, hL, hs, hr]
  have hqnil : q.filter isLiveTX = [] :=
    List.filter_eq_nil_iff.mpr (fun a ha => by simp [hq a ha])
  have htx : lines.filter isLiveTX = p.filter isLiveTX ++ [L] := by
    rw [hdec, List.filter_append, List.filter_cons_of_pos hLlive, hqnil]
  unfold summarize_iperf
  rw [hempty, htx, List.foldl_nil]
  have hfbtx : iperfFallbackTX (p.filter isLiveTX ++ [L]) iperfInit =
      { iperfInit with tx_sender := some v, tx_receiver := some v } := by
    unfold iperfFallbackTX
    have hne2 : (p.filter isLiveTX ++ [L]).isEmpty = false := by
      cases hp : p.filter isLiveTX <;> simp
    rw [if_pos (show (!(p.filter isLiveTX ++ [L]).isEmpty &&
        !pyTruthy iperfInit.tx_sender) = true by rw [hne2]; rfl)]
    simp only [List.getLast?_concat, hv]
  have hfb : iperfFallback (p.filter isLiveTX ++ [L]) (lines.filter isLiveRX) iperfInit
      = iperfFallbackRX (lines.filter isLiveRX)
          { iperfInit with tx_sender := some v, tx_receiver := some v } := by
    unfold iperfFallback
    rw [if_pos (show (!pyTruthy iperfInit.tx_sender ||
        !pyTruthy iperfInit.rx_sender) = true from rfl), hfbtx]
  rw [hfb]
  have hrx := iperfFallbackRX_tx_pres (lines.filter isLiveRX)
    { iperfInit with tx_sender := some v, tx_receiver := some v }
  exact iperfRender_starts_tx _ _ (iperfRenderTX_both _ v hvne hrx.1 hrx.2)

/-- Witness for the amended C1 at the single-live-line input. -/
theorem live_tx_fallback_both_roles_witness :
    strStarts (summarize_iperf [liveTXLine])
      ("TX: " ++ "940 Mbits/sec" ++ " (sender), " ++ "940 Mbits/sec" ++
        " (receiver)") = true :=
  live_tx_fallback_both_roles [liveTXLine] [] [] liveTXLine "940 Mbits/sec"
    (by decide) rfl (by decide) (by simp) (by decide)
